import Mathlib

/-!
Verification of the IP-geolocation repository (ip_geolocation.py and
geolocation_service.py) via a shallow embedding.

The network is modelled by an explicit environment: each provider adapter
performs at most one HTTP GET per call, and the environment records, for
each provider, the outcome of that single request — either a parsed JSON
payload (`ok`) or a raised exception with its message (`exn`, covering
transport failures, timeouts, and JSON-decode errors, all caught by the
adapters' blanket `except Exception` handlers).

Numeric JSON values are modelled as `Rat` (the code performs no arithmetic
on coordinates, it only carries them through, so exact rationals are a
faithful carrier).  Python dict results are modelled as structures whose
fields are `Option`s: a key absent from the returned dict is `none`.
-/

namespace Geo

/-- Outcome of a single HTTP request made by an adapter: either the parsed
JSON payload, or an exception (transport failure, timeout, decode error)
whose message is the Python `str(e)` text. -/
inductive HttpOutcome (α : Type) where
  | ok (data : α)
  | exn (msg : String)
deriving DecidableEq

/-- The normalized result record built by the `IPGeolocation` adapters.
Each field corresponds to a key of the Python dict; `none` means the key
is absent from the dict. -/
structure LocationResult where
  ip : Option String := none
  latitude : Option Rat := none
  longitude : Option Rat := none
  city : Option String := none
  country : Option String := none
  country_code : Option String := none
  region : Option String := none
  timezone : Option String := none
  isp : Option String := none
  org : Option String := none
  provider : Option String := none
  provider_used : Option String := none
  error : Option String := none
deriving DecidableEq

/-- Keyword arguments forwarded by `get_location` to an adapter
(`**kwargs` in the source): the credential parameters the adapters
accept.  `none` means the argument was not passed. -/
structure Params where
  token : Option String := none
  api_key : Option String := none
deriving DecidableEq

/-- Parsed JSON payload of an ip-api.com response, restricted to the keys
the adapter reads.  `status` is accessed as `data['status']` in the
source, so its absence raises a KeyError inside the adapter's `try`. -/
structure IpApiData where
  status : Option String := none
  message : Option String := none
  lat : Option Rat := none
  lon : Option Rat := none
  city : Option String := none
  country : Option String := none
  countryCode : Option String := none
  regionName : Option String := none
  timezone : Option String := none
  isp : Option String := none
deriving DecidableEq

/-- Parsed JSON payload of an ipinfo.io response, restricted to the keys
the adapter reads.  `loc` is the raw comma-joined coordinate string. -/
structure IpInfoData where
  loc : Option String := none
  city : Option String := none
  country : Option String := none
  region : Option String := none
  timezone : Option String := none
  org : Option String := none
deriving DecidableEq

/-- Parsed JSON payload of an ipgeolocation.io response.  The code applies
`float(...)` to `latitude`/`longitude`, so they are kept as raw strings
here; `time_zone_name` models the nested `data.get('time_zone', dict()).get('name')`. -/
structure IpGeoData where
  latitude : Option String := none
  longitude : Option String := none
  city : Option String := none
  country_name : Option String := none
  country_code2 : Option String := none
  state_prov : Option String := none
  time_zone_name : Option String := none
  isp : Option String := none
deriving DecidableEq

/-- Parsed JSON payload of an AbstractAPI response.  As for
ipgeolocation.io, the coordinates pass through `float(...)` and are kept
as raw strings; `timezone_name` models the nested
`data.get('timezone', dict()).get('name')`. -/
structure AbstractData where
  latitude : Option String := none
  longitude : Option String := none
  city : Option String := none
  country : Option String := none
  country_code : Option String := none
  region : Option String := none
  timezone_name : Option String := none
deriving DecidableEq

/-- Parsed JSON payload of an IPStack response.  `latitude`/`longitude`
are used raw (no `float(...)`) and are modelled as numbers;
`time_zone_id` models `data.get('time_zone', dict()).get('id')` and
`error_info` models `data.get('error', dict()).get('info', ...)`. -/
structure IpStackData where
  latitude : Option Rat := none
  longitude : Option Rat := none
  city : Option String := none
  country_name : Option String := none
  country_code : Option String := none
  region_name : Option String := none
  time_zone_id : Option String := none
  error_info : Option String := none
deriving DecidableEq

/-- Value of a string of decimal digits; `none` if empty or any character
is not a digit. -/
def digitsVal (cs : List Char) : Option Nat :=
  match cs with
  | [] => none
  | _ =>
    cs.foldl
      (fun acc c =>
        match acc with
        | none => none
        | some a => if c.isDigit then some (a * 10 + (c.toNat - 48)) else none)
      (some 0)

/-- Split a character list at every occurrence of the separator,
modelling Python `str.split(sep)` for a one-character separator: the
result always has one more piece than there are separators, and the
empty input yields one empty piece. -/
def splitOnChar (sep : Char) : List Char → List (List Char)
  | [] => [[]]
  | c :: rest =>
    if c = sep then [] :: splitOnChar sep rest
    else
      match splitOnChar sep rest with
      | [] => [[c]]
      | piece :: pieces => (c :: piece) :: pieces

/-- Model of the Python builtin `float(s)` on the decimal-literal subset
actually produced by the geolocation APIs: an optional sign followed by
digits, optionally with a fractional part (`37.4`, `-122.0`, `8`).
Inputs outside this subset are rejected (`none`), modelling the
`ValueError` that Python `float` raises on them. -/
def pyFloat (s : String) : Option Rat :=
  let (sgn, u) :=
    match s.toList with
    | '-' :: rest => ((-1 : Rat), rest)
    | '+' :: rest => ((1 : Rat), rest)
    | cs => ((1 : Rat), cs)
  match splitOnChar '.' u with
  | [w] =>
    match digitsVal w with
    | some n => some (sgn * n)
    | none => none
  | [w, f] =>
    match digitsVal w, digitsVal f with
    | some n, some m => some (sgn * (n + (m : Rat) / (10 : Rat) ^ f.length))
    | _, _ => none
  | _ => none

/-- Models `lat, lon = data['loc'].split(',')` followed by `float(lat)`,
`float(lon)` in the ipinfo adapters: the unpacking raises a ValueError
unless the split yields exactly two pieces, and each piece must convert.
The error message is the Python exception text (quotes elided). -/
def splitLoc (s : String) : Except String (Rat × Rat) :=
  match splitOnChar ',' s.toList with
  | [a, b] =>
    match pyFloat (String.mk a) with
    | none => .error ("could not convert string to float: " ++ String.mk a)
    | some la =>
      match pyFloat (String.mk b) with
      | none => .error ("could not convert string to float: " ++ String.mk b)
      | some lo => .ok (la, lo)
  | [_] => .error "not enough values to unpack (expected 2, got 1)"
  | _ => .error "too many values to unpack (expected 2)"

/-- Embedding of `IPGeolocation._get_location_ipapi`.  The outer `try` catches every
exception: the transport/decode path (`exn`), and the KeyError from
`data['status']` when the key is absent (message modelled as
`KeyError: status`, Python quoting elided). -/
def get_location_ipapi (ip_address : String) (out : HttpOutcome IpApiData) :
    LocationResult :=
  match out with
  | .exn e => { error := some ("IP-API error: " ++ e) }
  | .ok data =>
    match data.status with
    | none => { error := some "IP-API error: KeyError: status" }
    | some s =>
      if s = "success" then
        { ip := some ip_address
          latitude := data.lat
          longitude := data.lon
          city := data.city
          country := data.country
          country_code := data.countryCode
          region := data.regionName
          timezone := data.timezone
          isp := data.isp
          provider := some "ip-api" }
      else
        { error := some (data.message.getD "Unknown error") }

/-- Embedding of `IPGeolocation._get_location_ipinfo`.  The `token` parameter only
affects the request headers, never the result shape.  A ValueError from
the `split`/`float` sequence is caught by the adapter's own handler and
prefixed like any other exception. -/
def get_location_ipinfo (ip_address : String) (token : Option String)
    (out : HttpOutcome IpInfoData) : LocationResult :=
  match token, out with
  | _, .exn e => { error := some ("IPInfo error: " ++ e) }
  | _, .ok data =>
    match data.loc with
    | none => { error := some "Location data not available" }
    | some locStr =>
      match splitLoc locStr with
      | .error e => { error := some ("IPInfo error: " ++ e) }
      | .ok (la, lo) =>
        { ip := some ip_address
          latitude := some la
          longitude := some lo
          city := data.city
          country := data.country
          region := data.region
          timezone := data.timezone
          org := data.org
          provider := some "ipinfo" }

/-- Embedding of `IPGeolocation._get_location_ipgeolocation`.  The `api_key` parameter
only affects the request query string.  A ValueError from `float(...)` is
caught by the adapter's own handler and prefixed; a missing `longitude`
key raises a KeyError at `data['longitude']`, likewise caught. -/
def get_location_ipgeolocation (ip_address : String) (api_key : Option String)
    (out : HttpOutcome IpGeoData) : LocationResult :=
  match api_key, out with
  | _, .exn e => { error := some ("IPGeolocation error: " ++ e) }
  | _, .ok data =>
    match data.latitude with
    | none => { error := some "Location data not available" }
    | some latStr =>
      match pyFloat latStr with
      | none =>
        { error := some ("IPGeolocation error: could not convert string to float: "
            ++ latStr) }
      | some la =>
        match data.longitude with
        | none => { error := some "IPGeolocation error: KeyError: longitude" }
        | some lonStr =>
          match pyFloat lonStr with
          | none =>
            { error := some ("IPGeolocation error: could not convert string to float: "
                ++ lonStr) }
          | some lo =>
            { ip := some ip_address
              latitude := some la
              longitude := some lo
              city := data.city
              country := data.country_name
              country_code := data.country_code2
              region := data.state_prov
              timezone := data.time_zone_name
              isp := data.isp
              provider := some "ipgeolocation" }

/-- Embedding of `IPGeolocation._get_location_abstractapi`.  Here `api_key` is a required
positional parameter; this function models the adapter body, entered only
once the argument is bound. -/
def get_location_abstractapi (ip_address : String) (api_key : String)
    (out : HttpOutcome AbstractData) : LocationResult :=
  match api_key, out with
  | _, .exn e => { error := some ("AbstractAPI error: " ++ e) }
  | _, .ok data =>
    match data.latitude with
    | none => { error := some "Location data not available" }
    | some latStr =>
      match pyFloat latStr with
      | none =>
        { error := some ("AbstractAPI error: could not convert string to float: "
            ++ latStr) }
      | some la =>
        match data.longitude with
        | none => { error := some "AbstractAPI error: KeyError: longitude" }
        | some lonStr =>
          match pyFloat lonStr with
          | none =>
            { error := some ("AbstractAPI error: could not convert string to float: "
                ++ lonStr) }
          | some lo =>
            { ip := some ip_address
              latitude := some la
              longitude := some lo
              city := data.city
              country := data.country
              country_code := data.country_code
              region := data.region
              timezone := data.timezone_name
              provider := some "abstractapi" }

/-- Embedding of `IPGeolocation._get_location_ipstack`.  Here `api_key` is a required
positional parameter; the coordinates are used raw, without `float(...)`. -/
def get_location_ipstack (ip_address : String) (api_key : String)
    (out : HttpOutcome IpStackData) : LocationResult :=
  match api_key, out with
  | _, .exn e => { error := some ("IPStack error: " ++ e) }
  | _, .ok data =>
    match data.latitude with
    | none => { error := some (data.error_info.getD "Unknown error") }
    | some la =>
      match data.longitude with
      | none => { error := some "IPStack error: KeyError: longitude" }
      | some lo =>
        { ip := some ip_address
          latitude := some la
          longitude := some lo
          city := data.city
          country := data.country_name
          country_code := data.country_code
          region := data.region_name
          timezone := data.time_zone_id
          provider := some "ipstack" }

/-- Network behaviour for one resolver call: the response each provider's
single HTTP request would receive.  Within one `get_location` /
`get_location_with_fallback` call every adapter runs at most once, so one
outcome per provider suffices. -/
structure Env where
  ipapi : HttpOutcome IpApiData
  ipinfo : HttpOutcome IpInfoData
  ipgeolocation : HttpOutcome IpGeoData
  abstractapi : HttpOutcome AbstractData
  ipstack : HttpOutcome IpStackData
deriving DecidableEq

/-- The keys of the `self.providers` registry built in `__init__`. -/
def providerNames : List String :=
  ["ip-api", "ipinfo", "ipgeolocation", "abstractapi", "ipstack"]

/-- Python `str(TypeError)` raised when a required positional argument is
missing from a call (quoting elided). -/
def missingArgMsg (fn : String) : String :=
  fn ++ "() missing 1 required positional argument: api_key"

/-- Models the call `self.providers[provider](ip_address, **kwargs)` for a
`provider` in the registry: `none` when the name is not registered,
`some (.error m)` when the call raises (the only raise that escapes an
adapter is the TypeError from an unbound required `api_key`, since every
adapter body is wrapped in its own `try`/`except Exception`), and
`some (.ok r)` when the adapter returns `r`. -/
def dispatch (env : Env) (ip_address provider : String) (p : Params) :
    Option (Except String LocationResult) :=
  if provider = "ip-api" then
    some (.ok (get_location_ipapi ip_address env.ipapi))
  else if provider = "ipinfo" then
    some (.ok (get_location_ipinfo ip_address p.token env.ipinfo))
  else if provider = "ipgeolocation" then
    some (.ok (get_location_ipgeolocation ip_address p.api_key env.ipgeolocation))
  else if provider = "abstractapi" then
    match p.api_key with
    | none => some (.error (missingArgMsg "_get_location_abstractapi"))
    | some k => some (.ok (get_location_abstractapi ip_address k env.abstractapi))
  else if provider = "ipstack" then
    match p.api_key with
    | none => some (.error (missingArgMsg "_get_location_ipstack"))
    | some k => some (.ok (get_location_ipstack ip_address k env.ipstack))
  else none

/-- Embedding of `IPGeolocation.get_location`: unknown provider short-circuits with an
error dict; otherwise the adapter call runs under `try`, and any raised
exception is converted to a dict whose error field is `str(e)`. -/
def get_location (env : Env) (ip_address provider : String) (p : Params) :
    LocationResult :=
  match dispatch env ip_address provider p with
  | none => { error := some ("Unknown provider: " ++ provider) }
  | some (.error e) => { error := some e }
  | some (.ok r) => r

/-- Number of outbound HTTP requests a `get_location` call performs: zero
for an unknown provider (the registry check precedes any request) and
zero when the adapter call raises before its body runs (missing required
`api_key`); otherwise the adapter issues exactly one `requests.get`. -/
def httpCalls (provider : String) (p : Params) : Nat :=
  if provider ∈ providerNames then
    if (provider = "abstractapi" ∨ provider = "ipstack") ∧ p.api_key = none then 0
    else 1
  else 0

/-- The acceptance test of the fallback loop, line 70 of the source:
`'error' not in result and result.get('latitude') is not None`. -/
def accepted (r : LocationResult) : Bool :=
  r.error.isNone && r.latitude.isSome

/-- Embedding of `IPGeolocation.get_location_with_fallback` for an explicit provider
list: try each provider in order with no keyword arguments, return the
first accepted result stamped with `provider_used`, sleeping 0.5 s after
every unsuccessful attempt; exhaustion yields the generic error dict. -/
def get_location_with_fallback (env : Env) (ip_address : String) :
    List String → LocationResult
  | [] => { error := some "All providers failed" }
  | provider :: rest =>
    let result := get_location env ip_address provider {}
    if accepted result then { result with provider_used := some provider }
    else get_location_with_fallback env ip_address rest

/-- The default provider list used when `providers is None`. -/
def get_location_with_fallback_default (env : Env) (ip_address : String) :
    LocationResult :=
  get_location_with_fallback env ip_address ["ip-api", "ipinfo", "ipgeolocation"]

/-- Observable timing events of one fallback call: a provider attempt, or
a `time.sleep` of the given duration (in seconds). -/
inductive FbEvent where
  | attempt (provider : String)
  | sleep (seconds : Rat)
deriving DecidableEq

/-- Instrumented fallback loop: the result together with the ordered list
of attempts and sleeps it performs.  Mirrors
`get_location_with_fallback`: an accepted attempt returns immediately
(no sleep); every unsuccessful attempt is followed by `time.sleep(0.5)`
before the loop advances. -/
def fallbackRun (env : Env) (ip_address : String) :
    List String → LocationResult × List FbEvent
  | [] => ({ error := some "All providers failed" }, [])
  | provider :: rest =>
    let result := get_location env ip_address provider {}
    if accepted result then
      ({ result with provider_used := some provider }, [FbEvent.attempt provider])
    else
      let r := fallbackRun env ip_address rest
      (r.1, FbEvent.attempt provider :: FbEvent.sleep (1 / 2) :: r.2)

/-- The dict built by the `GeolocationService` static methods in
geolocation_service.py: like `LocationResult` but with a mandatory
boolean `success` key and without the country_code/isp/org/provider_used
keys, which that file never sets. -/
structure ServiceResult where
  success : Bool
  ip : Option String := none
  latitude : Option Rat := none
  longitude : Option Rat := none
  city : Option String := none
  country : Option String := none
  region : Option String := none
  timezone : Option String := none
  provider : Option String := none
  error : Option String := none
deriving DecidableEq

/-- Embedding of `GeolocationService.get_location_ipapi`.  Same response handling as
the resolver's ip-api adapter, but the exception branch stores bare
`str(e)` (no provider prefix) and the success branch adds `success: True`
and omits country_code/isp. -/
def service_get_location_ipapi (ip_address : String)
    (out : HttpOutcome IpApiData) : ServiceResult :=
  match out with
  | .exn e => { success := false, error := some e }
  | .ok data =>
    match data.status with
    | none => { success := false, error := some "KeyError: status" }
    | some s =>
      if s = "success" then
        { success := true
          ip := some ip_address
          latitude := data.lat
          longitude := data.lon
          city := data.city
          country := data.country
          region := data.regionName
          timezone := data.timezone
          provider := some "ip-api" }
      else
        { success := false, error := some (data.message.getD "Unknown error") }

/-- Embedding of `GeolocationService.get_location_ipinfo`: like the resolver's ipinfo
adapter but with `success` flag, bare `str(e)` in the exception branch,
and no org key. -/
def service_get_location_ipinfo (ip_address : String)
    (out : HttpOutcome IpInfoData) : ServiceResult :=
  match out with
  | .exn e => { success := false, error := some e }
  | .ok data =>
    match data.loc with
    | none => { success := false, error := some "Location data not available" }
    | some locStr =>
      match splitLoc locStr with
      | .error e => { success := false, error := some e }
      | .ok (la, lo) =>
        { success := true
          ip := some ip_address
          latitude := some la
          longitude := some lo
          city := data.city
          country := data.country
          region := data.region
          timezone := data.timezone
          provider := some "ipinfo" }

/-- The resolution core of the `/geolocate` Flask handler, after the IP
address has been extracted from the request: try the service's ip-api
adapter first; if its `success` flag is falsy, replace the result with
the service's ipinfo adapter result; serialize whatever remains. -/
def geolocate (env : Env) (ip_address : String) : ServiceResult :=
  let result := service_get_location_ipapi ip_address env.ipapi
  if result.success then result
  else service_get_location_ipinfo ip_address env.ipinfo

/-- Agreement of a service dict with a resolver dict "up to the added
boolean success flag": the flag mirrors error absence and every field the
two schemas share coincides. -/
def serviceMatchesLocation (s : ServiceResult) (r : LocationResult) : Prop :=
  s.success = r.error.isNone ∧ s.ip = r.ip ∧ s.latitude = r.latitude ∧
    s.longitude = r.longitude ∧ s.city = r.city ∧ s.country = r.country ∧
    s.region = r.region ∧ s.timezone = r.timezone ∧ s.provider = r.provider ∧
    s.error = r.error

instance (s : ServiceResult) (r : LocationResult) :
    Decidable (serviceMatchesLocation s r) := by
  unfold serviceMatchesLocation; infer_instance

/-! ### Helper lemmas about the fallback loop -/

/-- The instrumented fallback loop computes the same result as
`get_location_with_fallback`. -/
theorem fallbackRun_fst (env : Env) (ip_address : String) :
    ∀ providers : List String,
      (fallbackRun env ip_address providers).1 =
        get_location_with_fallback env ip_address providers
  | [] => rfl
  | provider :: rest => by
    simp only [fallbackRun, get_location_with_fallback]
    by_cases h : accepted (get_location env ip_address provider {}) <;>
      simp [h, fallbackRun_fst env ip_address rest]

/-- When every provider in the list is rejected, the fallback loop
returns the generic failure dict and its trace is an attempt followed by
a 0.5 s sleep for each provider, in order. -/
theorem fallbackRun_allFail (env : Env) (ip_address : String) :
    ∀ providers : List String,
      (∀ q ∈ providers, accepted (get_location env ip_address q {}) = false) →
      fallbackRun env ip_address providers =
        ({ error := some "All providers failed" },
          providers.flatMap fun q => [FbEvent.attempt q, FbEvent.sleep (1 / 2)])
  | [], _ => rfl
  | provider :: rest, h => by
    have hp : accepted (get_location env ip_address provider {}) = false :=
      h provider (List.mem_cons_self ..)
    have hr := fallbackRun_allFail env ip_address rest
      (fun q hq => h q (List.mem_cons_of_mem _ hq))
    simp [fallbackRun, hp, hr]

/-- When every provider before `p` is rejected and `p` is accepted, the
fallback loop returns `p`'s result stamped with `provider_used := p`, and
its trace consists of the failed attempts (each with its trailing sleep)
followed by the attempt of `p` alone — providers after `p` never appear. -/
theorem fallbackRun_firstAccept (env : Env) (ip_address : String)
    (p : String) (post : List String)
    (hp : accepted (get_location env ip_address p {}) = true) :
    ∀ pre : List String,
      (∀ q ∈ pre, accepted (get_location env ip_address q {}) = false) →
      fallbackRun env ip_address (pre ++ p :: post) =
        ({ get_location env ip_address p {} with provider_used := some p },
          (pre.flatMap fun q => [FbEvent.attempt q, FbEvent.sleep (1 / 2)]) ++
            [FbEvent.attempt p])
  | [], _ => by simp [fallbackRun, hp]
  | q :: pre, h => by
    have hq : accepted (get_location env ip_address q {}) = false :=
      h q (List.mem_cons_self ..)
    have hr := fallbackRun_firstAccept env ip_address p post hp pre
      (fun x hx => h x (List.mem_cons_of_mem _ hx))
    simp [fallbackRun, hq, hr]

/-! ### Shape lemmas about individual adapters -/

/-- A result dict containing a single `error` key and nothing else. -/
def onlyError (r : LocationResult) : Prop :=
  ∃ m, r = { error := some m }

theorem onlyError_latitude {r : LocationResult} (h : onlyError r) :
    r.latitude = none := by
  obtain ⟨m, rfl⟩ := h; rfl

theorem onlyError_longitude {r : LocationResult} (h : onlyError r) :
    r.longitude = none := by
  obtain ⟨m, rfl⟩ := h; rfl

theorem onlyError_error {r : LocationResult} (h : onlyError r) :
    r.error.isSome = true := by
  obtain ⟨m, rfl⟩ := h; rfl

theorem ipapi_shape (ip : String) (out : HttpOutcome IpApiData) :
    onlyError (get_location_ipapi ip out) ∨
      (get_location_ipapi ip out).error = none := by
  cases out with
  | exn e => exact Or.inl ⟨_, rfl⟩
  | ok d =>
    cases h : d.status with
    | none => exact Or.inl ⟨"IP-API error: KeyError: status", by simp [get_location_ipapi, h]⟩
    | some s =>
      by_cases hs : s = "success"
      · exact Or.inr (by simp [get_location_ipapi, h, hs])
      · exact Or.inl ⟨d.message.getD "Unknown error", by simp [get_location_ipapi, h, hs]⟩

theorem ipinfo_shape (ip : String) (token : Option String)
    (out : HttpOutcome IpInfoData) :
    onlyError (get_location_ipinfo ip token out) ∨
      (get_location_ipinfo ip token out).error = none := by
  cases out with
  | exn e => exact Or.inl ⟨_, rfl⟩
  | ok d =>
    cases h : d.loc with
    | none => exact Or.inl ⟨"Location data not available", by simp [get_location_ipinfo, h]⟩
    | some locStr =>
      cases hs : splitLoc locStr with
      | error e => exact Or.inl ⟨"IPInfo error: " ++ e, by simp [get_location_ipinfo, h, hs]⟩
      | ok la => exact Or.inr (by simp [get_location_ipinfo, h, hs])

theorem ipgeolocation_shape (ip : String) (api_key : Option String)
    (out : HttpOutcome IpGeoData) :
    onlyError (get_location_ipgeolocation ip api_key out) ∨
      (get_location_ipgeolocation ip api_key out).error = none := by
  cases out with
  | exn e => exact Or.inl ⟨_, rfl⟩
  | ok d =>
    cases h : d.latitude with
    | none => exact Or.inl ⟨"Location data not available", by simp [get_location_ipgeolocation, h]⟩
    | some latStr =>
      cases hla : pyFloat latStr with
      | none => exact Or.inl ⟨"IPGeolocation error: could not convert string to float: " ++ latStr, by simp [get_location_ipgeolocation, h, hla]⟩
      | some la =>
        cases hlon : d.longitude with
        | none =>
          exact Or.inl ⟨"IPGeolocation error: KeyError: longitude", by simp [get_location_ipgeolocation, h, hla, hlon]⟩
        | some lonStr =>
          cases hlo : pyFloat lonStr with
          | none =>
            exact Or.inl ⟨"IPGeolocation error: could not convert string to float: " ++ lonStr, by simp [get_location_ipgeolocation, h, hla, hlon, hlo]⟩
          | some lo =>
            exact Or.inr (by simp [get_location_ipgeolocation, h, hla, hlon, hlo])

theorem abstractapi_shape (ip api_key : String) (out : HttpOutcome AbstractData) :
    onlyError (get_location_abstractapi ip api_key out) ∨
      (get_location_abstractapi ip api_key out).error = none := by
  cases out with
  | exn e => exact Or.inl ⟨_, rfl⟩
  | ok d =>
    cases h : d.latitude with
    | none => exact Or.inl ⟨"Location data not available", by simp [get_location_abstractapi, h]⟩
    | some latStr =>
      cases hla : pyFloat latStr with
      | none => exact Or.inl ⟨"AbstractAPI error: could not convert string to float: " ++ latStr, by simp [get_location_abstractapi, h, hla]⟩
      | some la =>
        cases hlon : d.longitude with
        | none =>
          exact Or.inl ⟨"AbstractAPI error: KeyError: longitude", by simp [get_location_abstractapi, h, hla, hlon]⟩
        | some lonStr =>
          cases hlo : pyFloat lonStr with
          | none => exact Or.inl ⟨"AbstractAPI error: could not convert string to float: " ++ lonStr, by simp [get_location_abstractapi, h, hla, hlon, hlo]⟩
          | some lo => exact Or.inr (by simp [get_location_abstractapi, h, hla, hlon, hlo])

theorem ipstack_shape (ip api_key : String) (out : HttpOutcome IpStackData) :
    onlyError (get_location_ipstack ip api_key out) ∨
      (get_location_ipstack ip api_key out).error = none := by
  cases out with
  | exn e => exact Or.inl ⟨_, rfl⟩
  | ok d =>
    cases h : d.latitude with
    | none => exact Or.inl ⟨d.error_info.getD "Unknown error", by simp [get_location_ipstack, h]⟩
    | some la =>
      cases hlon : d.longitude with
      | none => exact Or.inl ⟨"IPStack error: KeyError: longitude", by simp [get_location_ipstack, h, hlon]⟩
      | some lo => exact Or.inr (by simp [get_location_ipstack, h, hlon])

/-- Every result of `get_location` is either a bare error dict or an
adapter result with no error key. -/
theorem get_location_shape (env : Env) (ip provider : String) (p : Params) :
    onlyError (get_location env ip provider p) ∨
      (get_location env ip provider p).error = none := by
  unfold get_location dispatch
  by_cases h1 : provider = "ip-api"
  · simpa [h1] using ipapi_shape ip env.ipapi
  by_cases h2 : provider = "ipinfo"
  · simpa [h1, h2] using ipinfo_shape ip p.token env.ipinfo
  by_cases h3 : provider = "ipgeolocation"
  · simpa [h1, h2, h3] using ipgeolocation_shape ip p.api_key env.ipgeolocation
  by_cases h4 : provider = "abstractapi"
  · cases hk : p.api_key with
    | none => exact Or.inl ⟨missingArgMsg "_get_location_abstractapi", by simp [h1, h2, h3, h4, hk]⟩
    | some k => simpa [h1, h2, h3, h4, hk] using abstractapi_shape ip k env.abstractapi
  by_cases h5 : provider = "ipstack"
  · cases hk : p.api_key with
    | none => exact Or.inl ⟨missingArgMsg "_get_location_ipstack", by simp [h1, h2, h3, h4, h5, hk]⟩
    | some k => simpa [h1, h2, h3, h4, h5, hk] using ipstack_shape ip k env.ipstack
  · exact Or.inl ⟨"Unknown provider: " ++ provider, by simp [h1, h2, h3, h4, h5]⟩

/-- A concrete environment in which every provider request raises a
transport error. -/
def envAllDown : Env :=
  { ipapi := .exn "connection refused"
    ipinfo := .exn "connection refused"
    ipgeolocation := .exn "connection refused"
    abstractapi := .exn "connection refused"
    ipstack := .exn "connection refused" }

/-- Predicate: the record carries a present, non-null latitude and longitude. -/
def hasCoords (r : LocationResult) : Prop :=
  r.latitude.isSome = true ∧ r.longitude.isSome = true

/-- Predicate: the record carries an error key. -/
def hasError (r : LocationResult) : Prop :=
  r.error.isSome = true

/-- An environment in which ip-api answers with a success status but no
`lat`/`lon` keys in the payload, and every other provider is down. -/
def envSuccessNoCoords : Env :=
  { envAllDown with ipapi := .ok { status := some "success" } }

/-! ### Claims -/

/-- C2, as stated, is false: a resolve attempt can return a record with
neither coordinates nor an error.  Concretely, when ip-api reports
`status: "success"` but the payload has no `lat`/`lon` keys, the adapter
builds the success record with `data.get('lat')` = None, so the result
has a null latitude and no error key. -/
theorem c2_exactly_one_counterexample :
    ¬ ((hasCoords (get_location envSuccessNoCoords "8.8.8.8" "ip-api" {}) ∧
          ¬ hasError (get_location envSuccessNoCoords "8.8.8.8" "ip-api" {})) ∨
        (hasError (get_location envSuccessNoCoords "8.8.8.8" "ip-api" {}) ∧
          ¬ hasCoords (get_location envSuccessNoCoords "8.8.8.8" "ip-api" {}))) := by
  have h : get_location envSuccessNoCoords "8.8.8.8" "ip-api" {} =
      { ip := some "8.8.8.8", provider := some "ip-api" } := rfl
  rw [h]
  simp [hasCoords, hasError]

/-- C2 (amended): "never both" holds — a record returned by a resolve
attempt never carries an error key together with a non-null latitude or
longitude — but "never neither" does not (see the counterexample). -/
theorem c2_never_both (env : Env) (ip provider : String) (p : Params) :
    ((get_location env ip provider p).error.isSome &&
        (get_location env ip provider p).latitude.isSome) = false ∧
      ((get_location env ip provider p).error.isSome &&
        (get_location env ip provider p).longitude.isSome) = false := by
  rcases get_location_shape env ip provider p with h | h
  · rw [onlyError_latitude h, onlyError_longitude h]
    simp
  · rw [h]
    simp

/-- C3: when no provider in the list (possibly empty) yields an accepted
result — no error key and non-null latitude — the fallback returns the
dict containing exactly the error `All providers failed` and nothing
else. -/
theorem c3_all_providers_failed (env : Env) (ip : String)
    (providers : List String)
    (h : ∀ q ∈ providers, accepted (get_location env ip q {}) = false) :
    get_location_with_fallback env ip providers =
      { error := some "All providers failed" } := by
  rw [← fallbackRun_fst, fallbackRun_allFail env ip providers h]

/-- Witness for C3 at the empty provider list. -/
theorem c3_all_providers_failed_witness :
    get_location_with_fallback envAllDown "8.8.8.8" [] =
      { error := some "All providers failed" } :=
  c3_all_providers_failed envAllDown "8.8.8.8" [] (by simp)

/-- C6: an unregistered provider name makes `get_location` return exactly
the unknown-provider error dict, and no HTTP request is issued. -/
theorem c6_unknown_provider (env : Env) (ip provider : String) (p : Params)
    (h : provider ∉ providerNames) :
    get_location env ip provider p =
        { error := some ("Unknown provider: " ++ provider) } ∧
      httpCalls provider p = 0 := by
  simp only [providerNames, List.mem_cons, List.not_mem_nil, or_false] at h
  push_neg at h
  obtain ⟨h1, h2, h3, h4, h5⟩ := h
  constructor
  · simp [get_location, dispatch, h1, h2, h3, h4, h5]
  · simp [httpCalls, providerNames, h1, h2, h3, h4, h5]

/-- Witness for C6 at the spec's concrete scenario: the name
`nonexistent`. -/
theorem c6_unknown_provider_witness :
    get_location envAllDown "8.8.8.8" "nonexistent" {} =
        { error := some ("Unknown provider: " ++ "nonexistent") } ∧
      httpCalls "nonexistent" {} = 0 :=
  c6_unknown_provider envAllDown "8.8.8.8" "nonexistent" {} (by decide)

/-- C7: `get_location` is total over adapter behaviour — whenever the
adapter call raises (`dispatch` yields an exception), the exception is
caught and converted into a dict whose error field is the exception's
message; by construction no exception propagates. -/
theorem c7_adapter_exception_caught (env : Env) (ip provider : String)
    (p : Params) (m : String)
    (h : dispatch env ip provider p = some (.error m)) :
    get_location env ip provider p = { error := some m } := by
  unfold get_location
  rw [h]

/-- Witness for C7: calling the abstractapi adapter without its required
`api_key` raises a TypeError, which `get_location` converts to data. -/
theorem c7_adapter_exception_caught_witness :
    get_location envAllDown "8.8.8.8" "abstractapi" {} =
      { error := some (missingArgMsg "_get_location_abstractapi") } :=
  c7_adapter_exception_caught envAllDown "8.8.8.8" "abstractapi" {}
    (missingArgMsg "_get_location_abstractapi") rfl

/-- If the fallback loop stamped `provider_used = q`, then `q`'s
attempt was accepted. -/
theorem fallback_provider_used (env : Env) (ip : String) :
    ∀ (providers : List String) (q : String),
      (get_location_with_fallback env ip providers).provider_used = some q →
      accepted (get_location env ip q {}) = true
  | [], q => by simp [get_location_with_fallback]
  | p :: rest, q => by
    simp only [get_location_with_fallback]
    by_cases h : accepted (get_location env ip p {})
    · simp only [h, if_true]
      intro hq
      obtain rfl : p = q := by simpa using hq
      exact h
    · simp only [h, Bool.false_eq_true, if_false]
      exact fallback_provider_used env ip rest q

/-- C10: the fallback loop forwards no credential arguments, so the
key-required providers always raise their missing-`api_key` TypeError,
yielding an error dict; consequently neither can ever be the provider
stamped as accepted. -/
theorem c10_key_required_never_accepted (env : Env) (ip : String) :
    get_location env ip "abstractapi" {} =
        { error := some (missingArgMsg "_get_location_abstractapi") } ∧
      get_location env ip "ipstack" {} =
        { error := some (missingArgMsg "_get_location_ipstack") } ∧
      ∀ providers : List String,
        (get_location_with_fallback env ip providers).provider_used ≠
            some "abstractapi" ∧
          (get_location_with_fallback env ip providers).provider_used ≠
            some "ipstack" := by
  refine ⟨rfl, rfl, fun providers => ⟨fun h => ?_, fun h => ?_⟩⟩
  · have := fallback_provider_used env ip providers "abstractapi" h
    have he : get_location env ip "abstractapi" {} =
        { error := some (missingArgMsg "_get_location_abstractapi") } := rfl
    rw [he] at this
    simp [accepted] at this
  · have := fallback_provider_used env ip providers "ipstack" h
    have he : get_location env ip "ipstack" {} =
        { error := some (missingArgMsg "_get_location_ipstack") } := rfl
    rw [he] at this
    simp [accepted] at this

/-- Witness for C10: with both key-required providers listed first and
every network request failing, neither is stamped as accepted. -/
theorem c10_key_required_never_accepted_witness :
    (get_location_with_fallback envAllDown "8.8.8.8"
          ["abstractapi", "ipstack", "ip-api"]).provider_used ≠
        some "abstractapi" ∧
      (get_location_with_fallback envAllDown "8.8.8.8"
          ["abstractapi", "ipstack", "ip-api"]).provider_used ≠
        some "ipstack" :=
  (c10_key_required_never_accepted envAllDown "8.8.8.8").2.2
    ["abstractapi", "ipstack", "ip-api"]

/-- An environment in which the ip-api request fails with a transport
error while ipinfo answers with a well-formed payload. -/
def envIpapiDown : Env :=
  { envAllDown with
    ipinfo := .ok
      { loc := some "37.4,-122.0"
        city := some "Mountain View"
        country := some "US"
        region := some "California"
        timezone := some "America/Los_Angeles"
        org := some "Google LLC" } }

/-- C1: the fallback returns the result of the first provider in the list
whose `get_location` result has no error key and a non-null latitude,
stamped with that provider's name in `provider_used`; the trace contains
only the earlier (rejected) attempts and the accepted one, so adapters of
later providers are never invoked. -/
theorem c1_first_accepted_wins (env : Env) (ip : String)
    (pre : List String) (p : String) (post : List String)
    (hpre : ∀ q ∈ pre, accepted (get_location env ip q {}) = false)
    (hp : accepted (get_location env ip p {}) = true) :
    get_location_with_fallback env ip (pre ++ p :: post) =
        { get_location env ip p {} with provider_used := some p } ∧
      (fallbackRun env ip (pre ++ p :: post)).2 =
        (pre.flatMap fun q => [FbEvent.attempt q, FbEvent.sleep (1 / 2)]) ++
          [FbEvent.attempt p] ∧
      ∀ q : String, FbEvent.attempt q ∈ (fallbackRun env ip (pre ++ p :: post)).2 →
        q ∈ pre ∨ q = p := by
  have hrun := fallbackRun_firstAccept env ip p post hp pre hpre
  refine ⟨?_, ?_, ?_⟩
  · rw [← fallbackRun_fst, hrun]
  · rw [hrun]
  · intro q hq
    rw [hrun] at hq
    simp only [List.mem_append, List.mem_flatMap, List.mem_cons,
      List.not_mem_nil, or_false, List.mem_singleton] at hq
    rcases hq with ⟨x, hx, hax | has⟩ | ha
    · injection hax with hqx
      subst hqx
      exact Or.inl hx
    · exact FbEvent.noConfusion has
    · injection ha with hqp
      exact Or.inr hqp

/-- Witness for C1: ip-api down, ipinfo accepted, ipgeolocation never
reached. -/
theorem c1_first_accepted_wins_witness :
    accepted (get_location envIpapiDown "8.8.8.8" "ip-api" {}) = false ∧
      accepted (get_location envIpapiDown "8.8.8.8" "ipinfo" {}) = true ∧
      get_location_with_fallback envIpapiDown "8.8.8.8"
          ["ip-api", "ipinfo", "ipgeolocation"] =
        { get_location envIpapiDown "8.8.8.8" "ipinfo" {} with
            provider_used := some "ipinfo" } ∧
      (fallbackRun envIpapiDown "8.8.8.8"
          ["ip-api", "ipinfo", "ipgeolocation"]).2 =
        [FbEvent.attempt "ip-api", FbEvent.sleep (1 / 2), FbEvent.attempt "ipinfo"] := by
  have h := c1_first_accepted_wins envIpapiDown "8.8.8.8" ["ip-api"] "ipinfo"
    ["ipgeolocation"]
    (by intro q hq; rw [List.mem_singleton] at hq; subst hq; rfl) rfl
  exact ⟨rfl, rfl, h.1, by simpa using h.2.1⟩

/-- C9, as stated, is false: the loop body runs `time.sleep(0.5)` after
every unsuccessful attempt, including the final one — when the list is
exhausted the trace still ends with a sleep, where the claim says none
occurs. -/
theorem c9_sleep_after_last_counterexample :
    (fallbackRun envAllDown "8.8.8.8" ["ip-api"]).2 =
        [FbEvent.attempt "ip-api", FbEvent.sleep (1 / 2)] ∧
      (fallbackRun envAllDown "8.8.8.8" ["ip-api"]).2.getLast? =
        some (FbEvent.sleep (1 / 2)) :=
  ⟨rfl, rfl⟩

/-- C9 (amended): a fixed 0.5 s delay occurs immediately after every
unsuccessful attempt — both between attempts and after the final
unsuccessful one — and never after an accepted attempt. -/
theorem c9_sleep_placement (env : Env) (ip : String) :
    (∀ providers : List String,
        (∀ q ∈ providers, accepted (get_location env ip q {}) = false) →
        (fallbackRun env ip providers).2 =
          providers.flatMap fun q => [FbEvent.attempt q, FbEvent.sleep (1 / 2)]) ∧
      (∀ (pre : List String) (p : String) (post : List String),
        (∀ q ∈ pre, accepted (get_location env ip q {}) = false) →
        accepted (get_location env ip p {}) = true →
        (fallbackRun env ip (pre ++ p :: post)).2 =
          (pre.flatMap fun q => [FbEvent.attempt q, FbEvent.sleep (1 / 2)]) ++
            [FbEvent.attempt p]) := by
  constructor
  · intro providers h
    rw [fallbackRun_allFail env ip providers h]
  · intro pre p post hpre hp
    rw [fallbackRun_firstAccept env ip p post hp pre hpre]

/-- Witness for C9: a failing single-provider list sleeps after its only
attempt; an immediately accepted provider produces no sleep at all. -/
theorem c9_sleep_placement_witness :
    accepted (get_location envAllDown "8.8.8.8" "ip-api" {}) = false ∧
      (fallbackRun envAllDown "8.8.8.8" ["ip-api"]).2 =
        [FbEvent.attempt "ip-api", FbEvent.sleep (1 / 2)] ∧
      accepted (get_location envIpapiDown "8.8.8.8" "ipinfo" {}) = true ∧
      (fallbackRun envIpapiDown "8.8.8.8" ["ipinfo"]).2 =
        [FbEvent.attempt "ipinfo"] := by
  refine ⟨rfl, ?_, rfl, ?_⟩
  · have h := (c9_sleep_placement envAllDown "8.8.8.8").1 ["ip-api"]
      (by intro q hq; rw [List.mem_singleton] at hq; subst hq; rfl)
    simpa using h
  · have h := (c9_sleep_placement envIpapiDown "8.8.8.8").2 [] "ipinfo" []
      (by simp) rfl
    simpa using h

/-- Substring test: does `needle` occur contiguously inside `hay`?  Used
to state that an error message is (not) annotated with a provider name. -/
def containsStr (needle hay : String) : Bool :=
  (List.range (hay.toList.length + 1)).any fun i =>
    needle.toList.isPrefixOf (hay.toList.drop i)

/-- An environment in which ip-api reports a failure status with its own
message and every other provider is down. -/
def envIpapiFailStatus : Env :=
  { envAllDown with
    ipapi := .ok { status := some "fail", message := some "invalid query" } }

/-- C4, as stated, is false: on a provider-reported failure status the
ip-api adapter returns `data.get('message', 'Unknown error')` verbatim —
the error message carries no trace of the provider's name. -/
theorem c4_annotation_counterexample :
    get_location envIpapiFailStatus "1.2.3.4" "ip-api" {} =
        { error := some "invalid query" } ∧
      containsStr "ip-api" "invalid query" = false ∧
      containsStr "IP-API" "invalid query" = false :=
  ⟨rfl, by decide, by decide⟩

/-- C4 (amended): every failing outcome yields a record with only the
error field set, but the provider-name annotation is added only on the
exception path (transport failure, timeout, decode error, internal
KeyError/ValueError); a provider-reported failure or a payload lacking
the expected location keys yields the provider's own message (or a
generic one) without annotation. -/
theorem c4_error_shape (ip tok key e : String) :
    get_location_ipapi ip (.exn e) =
        { error := some ("IP-API error: " ++ e) } ∧
      get_location_ipinfo ip (some tok) (.exn e) =
        { error := some ("IPInfo error: " ++ e) } ∧
      get_location_ipgeolocation ip (some key) (.exn e) =
        { error := some ("IPGeolocation error: " ++ e) } ∧
      get_location_abstractapi ip key (.exn e) =
        { error := some ("AbstractAPI error: " ++ e) } ∧
      get_location_ipstack ip key (.exn e) =
        { error := some ("IPStack error: " ++ e) } ∧
      (∀ d : IpApiData, ∀ s, d.status = some s → s ≠ "success" →
        get_location_ipapi ip (.ok d) =
          { error := some (d.message.getD "Unknown error") }) ∧
      (∀ d : IpInfoData, d.loc = none →
        get_location_ipinfo ip (some tok) (.ok d) =
          { error := some "Location data not available" }) ∧
      (∀ d : IpGeoData, d.latitude = none →
        get_location_ipgeolocation ip (some key) (.ok d) =
          { error := some "Location data not available" }) ∧
      (∀ d : AbstractData, d.latitude = none →
        get_location_abstractapi ip key (.ok d) =
          { error := some "Location data not available" }) ∧
      (∀ d : IpStackData, d.latitude = none →
        get_location_ipstack ip key (.ok d) =
          { error := some (d.error_info.getD "Unknown error") }) := by
  refine ⟨rfl, rfl, rfl, rfl, rfl, ?_, ?_, ?_, ?_, ?_⟩
  · intro d s hs hne
    simp [get_location_ipapi, hs, hne]
  · intro d hd
    simp [get_location_ipinfo, hd]
  · intro d hd
    simp [get_location_ipgeolocation, hd]
  · intro d hd
    simp [get_location_abstractapi, hd]
  · intro d hd
    simp [get_location_ipstack, hd]

/-- Witness for C4: a concrete timeout is annotated with the provider
name, and a concrete failure status is converted to an error-only dict. -/
theorem c4_error_shape_witness :
    get_location_ipapi "8.8.8.8" (.exn "timed out") =
        { error := some ("IP-API error: " ++ "timed out") } ∧
      get_location_ipapi "8.8.8.8"
          (.ok { status := some "fail", message := some "invalid query" }) =
        { error := some (Option.getD (some "invalid query") "Unknown error") } :=
  ⟨(c4_error_shape "8.8.8.8" "t" "k" "timed out").1,
    (c4_error_shape "8.8.8.8" "t" "k" "timed out").2.2.2.2.2.1
      { status := some "fail", message := some "invalid query" } "fail" rfl
      (by decide)⟩

/-- The payload of the spec's concrete C8 scenario. -/
def ipapiSuccessData : IpApiData :=
  { status := some "success"
    lat := some 37.4
    lon := some (-122.0)
    city := some "Mountain View"
    country := some "United States" }

/-- C8: for every adapter, a well-formed success response (success
status / the expected location keys present and convertible) yields a
record with non-null latitude and longitude and no error key; and the
spec's concrete ip-api scenario for 8.8.8.8 produces exactly the expected
record. -/
theorem c8_success_responses (ip tok key : String) :
    (∀ d : IpApiData, d.status = some "success" →
      d.lat.isSome = true → d.lon.isSome = true →
      (get_location_ipapi ip (.ok d)).latitude.isSome = true ∧
        (get_location_ipapi ip (.ok d)).longitude.isSome = true ∧
        (get_location_ipapi ip (.ok d)).error = none) ∧
    (∀ d : IpInfoData, ∀ l la lo, d.loc = some l → splitLoc l = .ok (la, lo) →
      (get_location_ipinfo ip (some tok) (.ok d)).latitude.isSome = true ∧
        (get_location_ipinfo ip (some tok) (.ok d)).longitude.isSome = true ∧
        (get_location_ipinfo ip (some tok) (.ok d)).error = none) ∧
    (∀ d : IpGeoData, ∀ s t la lo, d.latitude = some s → pyFloat s = some la →
      d.longitude = some t → pyFloat t = some lo →
      (get_location_ipgeolocation ip (some key) (.ok d)).latitude.isSome = true ∧
        (get_location_ipgeolocation ip (some key) (.ok d)).longitude.isSome = true ∧
        (get_location_ipgeolocation ip (some key) (.ok d)).error = none) ∧
    (∀ d : AbstractData, ∀ s t la lo, d.latitude = some s → pyFloat s = some la →
      d.longitude = some t → pyFloat t = some lo →
      (get_location_abstractapi ip key (.ok d)).latitude.isSome = true ∧
        (get_location_abstractapi ip key (.ok d)).longitude.isSome = true ∧
        (get_location_abstractapi ip key (.ok d)).error = none) ∧
    (∀ d : IpStackData, ∀ la lo, d.latitude = some la → d.longitude = some lo →
      (get_location_ipstack ip key (.ok d)).latitude.isSome = true ∧
        (get_location_ipstack ip key (.ok d)).longitude.isSome = true ∧
        (get_location_ipstack ip key (.ok d)).error = none) ∧
    get_location_ipapi "8.8.8.8" (.ok ipapiSuccessData) =
      { ip := some "8.8.8.8"
        latitude := some 37.4
        longitude := some (-122.0)
        city := some "Mountain View"
        country := some "United States"
        provider := some "ip-api" } := by
  refine ⟨?_, ?_, ?_, ?_, ?_, rfl⟩
  · intro d hs hla hlo
    rcases Option.isSome_iff_exists.mp hla with ⟨la, hla'⟩
    rcases Option.isSome_iff_exists.mp hlo with ⟨lo, hlo'⟩
    simp [get_location_ipapi, hs, hla', hlo']
  · intro d l la lo hl hsp
    simp [get_location_ipinfo, hl, hsp]
  · intro d s t la lo hs hla ht hlo
    simp [get_location_ipgeolocation, hs, hla, ht, hlo]
  · intro d s t la lo hs hla ht hlo
    simp [get_location_abstractapi, hs, hla, ht, hlo]
  · intro d la lo hla hlo
    simp [get_location_ipstack, hla, hlo]

/-- Witness for C8: the concrete ip-api and ipinfo success payloads. -/
theorem c8_success_responses_witness :
    (get_location_ipapi "8.8.8.8" (.ok ipapiSuccessData)).latitude.isSome = true ∧
      (get_location_ipapi "8.8.8.8" (.ok ipapiSuccessData)).error = none ∧
      (get_location_ipinfo "8.8.8.8" (some "tok")
          (.ok { loc := some "37.4,-122.0" })).latitude.isSome = true ∧
      (get_location_ipinfo "8.8.8.8" (some "tok")
          (.ok { loc := some "37.4,-122.0" })).error = none := by
  have h1 := (c8_success_responses "8.8.8.8" "tok" "key").1 ipapiSuccessData rfl rfl rfl
  have hok : ∃ pr : Rat × Rat, splitLoc "37.4,-122.0" = .ok pr := ⟨_, rfl⟩
  obtain ⟨⟨la, lo⟩, hsp⟩ := hok
  have h2 := (c8_success_responses "8.8.8.8" "tok" "key").2.1
    { loc := some "37.4,-122.0" } "37.4,-122.0" la lo rfl hsp
  exact ⟨h1.1, h1.2.2, h2.1, h2.2.2⟩

/-- C5, as stated, is false: the Flask handler does not compute the same
result as the Resolver's two-provider fallback even up to the `success`
flag.  When both free providers fail it serializes the second service
adapter's own error (here the transport message) where
`get_location_with_fallback` returns the generic `All providers failed`
dict. -/
theorem c5_handler_counterexample :
    ¬ serviceMatchesLocation (geolocate envAllDown "8.8.8.8")
        (get_location_with_fallback envAllDown "8.8.8.8" ["ip-api", "ipinfo"]) := by
  have h1 : geolocate envAllDown "8.8.8.8" =
      { success := false, error := some "connection refused" } := rfl
  have h2 : get_location_with_fallback envAllDown "8.8.8.8" ["ip-api", "ipinfo"] =
      { error := some "All providers failed" } := rfl
  rw [h1, h2]
  intro h
  have := h.2.2.2.2.2.2.2.2.2
  simp at this

/-- C5 (amended): the handler reimplements the two-provider fallback with
the service's own adapters, accepting ip-api's result when and only when
its `success` flag is true and otherwise returning the ipinfo service
result verbatim; when ip-api answers with a well-formed success response
the handler does agree with `get_location_with_fallback(ip, ['ip-api',
'ipinfo'])` on every shared field, with `success` mirroring error
absence.  (On other outcomes the two can diverge, as the counterexample
shows.) -/
theorem c5_handler_vs_resolver :
    (∀ env : Env, ∀ ip : String,
      (service_get_location_ipapi ip env.ipapi).success = false →
      geolocate env ip = service_get_location_ipinfo ip env.ipinfo) ∧
    (∀ env : Env, ∀ ip : String, ∀ d : IpApiData,
      env.ipapi = .ok d → d.status = some "success" →
      d.lat.isSome = true → d.lon.isSome = true →
      serviceMatchesLocation (geolocate env ip)
        (get_location_with_fallback env ip ["ip-api", "ipinfo"])) := by
  constructor
  · intro env ip h
    simp [geolocate, h]
  · intro env ip d he hs hla hlo
    rcases Option.isSome_iff_exists.mp hla with ⟨la, hla'⟩
    rcases Option.isSome_iff_exists.mp hlo with ⟨lo, hlo'⟩
    have hserv : geolocate env ip =
        { success := true
          ip := some ip
          latitude := d.lat
          longitude := d.lon
          city := d.city
          country := d.country
          region := d.regionName
          timezone := d.timezone
          provider := some "ip-api" } := by
      simp [geolocate, service_get_location_ipapi, he, hs]
    have hres : get_location env ip "ip-api" {} =
        { ip := some ip
          latitude := d.lat
          longitude := d.lon
          city := d.city
          country := d.country
          country_code := d.countryCode
          region := d.regionName
          timezone := d.timezone
          isp := d.isp
          provider := some "ip-api" } := by
      simp [get_location, dispatch, get_location_ipapi, he, hs]
    have hacc : accepted (get_location env ip "ip-api" {}) = true := by
      rw [hres]
      simp [accepted, hla']
    have hfall : get_location_with_fallback env ip ["ip-api", "ipinfo"] =
        { get_location env ip "ip-api" {} with provider_used := some "ip-api" } := by
      simp only [get_location_with_fallback, hacc, if_true]
    rw [hserv, hfall, hres]
    simp [serviceMatchesLocation]

/-- An environment in which ip-api answers the spec's well-formed success
payload and every other provider is down. -/
def envIpapiGood : Env :=
  { envAllDown with ipapi := .ok ipapiSuccessData }

/-- Witness for C5: the agreement holds at the concrete success payload,
and the fall-through fires at the all-down environment. -/
theorem c5_handler_vs_resolver_witness :
    serviceMatchesLocation (geolocate envIpapiGood "8.8.8.8")
        (get_location_with_fallback envIpapiGood "8.8.8.8" ["ip-api", "ipinfo"]) ∧
      (service_get_location_ipapi "8.8.8.8" envAllDown.ipapi).success = false ∧
      geolocate envAllDown "8.8.8.8" =
        service_get_location_ipinfo "8.8.8.8" envAllDown.ipinfo :=
  ⟨c5_handler_vs_resolver.2 envIpapiGood "8.8.8.8" ipapiSuccessData rfl rfl rfl rfl,
    rfl,
    c5_handler_vs_resolver.1 envAllDown "8.8.8.8" rfl⟩

end Geo
